import Mathlib

/-!
Shallow embedding of the mediasoup Consumer entity proxy (src/Consumer.ts).

A Consumer proxies a worker-side media consumer.  Its mutable fields are
embedded as `ConsumerState`.  Every public operation of the class is embedded
as a pure function from the state (and, for operations that await a channel
request, the worker reply, passed in explicitly as an `Except`) to the new
state together with an `Effects` record listing, in program order per kind:
the channel requests issued, the events emitted on the Consumer itself
(local events, string-named exactly as in the source, with `@`-prefixed
internal events), and the events emitted on the observer emitter.

The channel notification subscription set up in the constructor and removed
by `removeAllListeners` is embedded as the Boolean field `subscribed`;
`Consumer.deliverChannelNotif` runs the registered handler only while
`subscribed` is true, matching the emitter dispatch.  The payload channel
subscription is never removed in the source, so payload frames always reach
`Consumer.handlePayloadNotif`, which drops them itself once closed.
-/

structure ConsumerScore where
  score : Nat
  producerScore : Nat
  producerScores : List Nat
deriving DecidableEq, Repr

structure ConsumerLayers where
  spatialLayer : Nat
  temporalLayer : Option Nat
deriving DecidableEq, Repr

/-- Data attached to an emitted event (local or observer). -/
inductive EventData where
  | none
  | score (s : ConsumerScore)
  | layers (l : Option ConsumerLayers)
  | trace (t : String)
  | packet (p : List Nat)
deriving DecidableEq, Repr

/-- An emitted event: the string name used by the emitter plus its data. -/
structure Evt where
  name : String
  data : EventData
deriving DecidableEq, Repr

/-- Payload of a channel request (the reqData argument of channel.request). -/
inductive ReqData where
  | none
  | layers (spatialLayer : Nat) (temporalLayer : Option Nat)
  | priority (p : Nat)
deriving DecidableEq, Repr

/-- A request issued on the channel: method string plus request data. -/
structure Request where
  method : String
  data : ReqData
deriving DecidableEq, Repr

/-- Observable effects of one operation, in program order per kind. -/
structure Effects where
  requests : List Request
  localEvents : List Evt
  observerEvents : List Evt
deriving DecidableEq, Repr

def Effects.empty : Effects := ⟨[], [], []⟩

/-- The mutable fields of a Consumer, plus the channel subscription flag. -/
structure ConsumerState where
  closed : Bool
  paused : Bool
  producerPaused : Bool
  priority : Nat
  score : ConsumerScore
  preferredLayers : Option ConsumerLayers
  currentLayers : Option ConsumerLayers
  appData : String
  subscribed : Bool
deriving DecidableEq, Repr

/-- The constructor: closed is false, priority starts at 1, currentLayers
unset, and the notification subscription is installed. -/
def Consumer.create (appData : String) (paused : Bool) (producerPaused : Bool)
    (score : ConsumerScore) (preferredLayers : Option ConsumerLayers) :
    ConsumerState :=
  { closed := false
    paused := paused
    producerPaused := producerPaused
    priority := 1
    score := score
    preferredLayers := preferredLayers
    currentLayers := Option.none
    appData := appData
    subscribed := true }

/-- The catch handler attached to the close request: any failure is
swallowed. -/
def swallow (r : Except String Unit) : Except String Unit :=
  match r with
  | Except.error _ => Except.ok ()
  | Except.ok _ => Except.ok ()

/-- close(): guarded on the closed flag; sets closed, removes the
notification subscription, issues a best-effort consumer.close request whose
failure is swallowed, emits the internal atClose event and the observer
close event. -/
def Consumer.close (s : ConsumerState) (reply : Except String Unit) :
    ConsumerState × Effects × Except String Unit :=
  if s.closed then (s, Effects.empty, Except.ok ())
  else
    ({ s with closed := true, subscribed := false },
     ⟨[⟨"consumer.close", ReqData.none⟩],
      [⟨"@close", EventData.none⟩],
      [⟨"close", EventData.none⟩]⟩,
     swallow reply)

/-- transportClosed(): guarded on the closed flag; sets closed, removes the
notification subscription, issues no request, emits the local transportclose
event and the observer close event. -/
def Consumer.transportClosed (s : ConsumerState) : ConsumerState × Effects :=
  if s.closed then (s, Effects.empty)
  else
    ({ s with closed := true, subscribed := false },
     ⟨[], [⟨"transportclose", EventData.none⟩], [⟨"close", EventData.none⟩]⟩)

/-- dump(): pass-through request, no state change.  The reply body is
opaque at this layer and embedded as a string. -/
def Consumer.dump (_s : ConsumerState) (reply : Except String String) :
    Effects × Except String String :=
  (⟨[⟨"consumer.dump", ReqData.none⟩], [], []⟩, reply)

/-- getStats(): pass-through request, no state change. -/
def Consumer.getStats (_s : ConsumerState) (reply : Except String String) :
    Effects × Except String String :=
  (⟨[⟨"consumer.getStats", ReqData.none⟩], [], []⟩, reply)

/-- pause(): records effective pause before the await, issues the request;
on success sets paused and emits the observer pause event on a rising edge;
on failure the raised error propagates before any mutation. -/
def Consumer.pause (s : ConsumerState) (reply : Except String Unit) :
    ConsumerState × Effects × Except String Unit :=
  let wasPaused := s.paused || s.producerPaused
  match reply with
  | Except.error e =>
      (s, ⟨[⟨"consumer.pause", ReqData.none⟩], [], []⟩, Except.error e)
  | Except.ok _ =>
      ({ s with paused := true },
       ⟨[⟨"consumer.pause", ReqData.none⟩], [],
        if wasPaused then [] else [⟨"pause", EventData.none⟩]⟩,
       Except.ok ())

/-- resume(): records effective pause before the await, issues the request;
on success clears paused and emits the observer resume event when it was
effectively paused and the producer is not holding it paused. -/
def Consumer.resume (s : ConsumerState) (reply : Except String Unit) :
    ConsumerState × Effects × Except String Unit :=
  let wasPaused := s.paused || s.producerPaused
  match reply with
  | Except.error e =>
      (s, ⟨[⟨"consumer.resume", ReqData.none⟩], [], []⟩, Except.error e)
  | Except.ok _ =>
      ({ s with paused := false },
       ⟨[⟨"consumer.resume", ReqData.none⟩], [],
        if wasPaused && !s.producerPaused then [⟨"resume", EventData.none⟩]
        else []⟩,
       Except.ok ())

/-- setPreferredLayers(): issues the request with the desired layers; on
success replaces preferredLayers with whatever the worker returned (which
may be unset). -/
def Consumer.setPreferredLayers (s : ConsumerState) (layers : ConsumerLayers)
    (reply : Except String (Option ConsumerLayers)) :
    ConsumerState × Effects × Except String Unit :=
  let req : List Request :=
    [⟨"consumer.setPreferredLayers",
      ReqData.layers layers.spatialLayer layers.temporalLayer⟩]
  match reply with
  | Except.error e => (s, ⟨req, [], []⟩, Except.error e)
  | Except.ok data =>
      ({ s with preferredLayers := data }, ⟨req, [], []⟩, Except.ok ())

/-- setPriority(n): issues a consumer.setPriority request carrying n; on
success the local priority becomes the value echoed in the reply. -/
def Consumer.setPriority (s : ConsumerState) (priority : Nat)
    (reply : Except String Nat) :
    ConsumerState × Effects × Except String Unit :=
  let req : List Request := [⟨"consumer.setPriority", ReqData.priority priority⟩]
  match reply with
  | Except.error e => (s, ⟨req, [], []⟩, Except.error e)
  | Except.ok p => ({ s with priority := p }, ⟨req, [], []⟩, Except.ok ())

/-- unsetPriority(): issues a consumer.setPriority request carrying the
baseline priority 1; on success the local priority becomes the echoed
value. -/
def Consumer.unsetPriority (s : ConsumerState) (reply : Except String Nat) :
    ConsumerState × Effects × Except String Unit :=
  let req : List Request := [⟨"consumer.setPriority", ReqData.priority 1⟩]
  match reply with
  | Except.error e => (s, ⟨req, [], []⟩, Except.error e)
  | Except.ok p => ({ s with priority := p }, ⟨req, [], []⟩, Except.ok ())

/-- requestKeyFrame(): fire-and-await request with no state change. -/
def Consumer.requestKeyFrame (s : ConsumerState) (reply : Except String Unit) :
    ConsumerState × Effects × Except String Unit :=
  match reply with
  | Except.error e =>
      (s, ⟨[⟨"consumer.requestKeyFrame", ReqData.none⟩], [], []⟩, Except.error e)
  | Except.ok _ =>
      (s, ⟨[⟨"consumer.requestKeyFrame", ReqData.none⟩], [], []⟩, Except.ok ())

/-- A worker message routed to this consumer id on the channel, one
constructor per case label of the handler switch; unknown events fall to the
default case, which only logs. -/
inductive ChannelNotif where
  | producerclose
  | producerpause
  | producerresume
  | score (sc : ConsumerScore)
  | layerschange (l : Option ConsumerLayers)
  | trace (t : String)
  | unknown (event : String)
deriving DecidableEq, Repr

/-- The handler registered in the constructor for channel messages. -/
def Consumer.handleChannelNotif (s : ConsumerState) (n : ChannelNotif) :
    ConsumerState × Effects :=
  match n with
  | ChannelNotif.producerclose =>
      if s.closed then (s, Effects.empty)
      else
        ({ s with closed := true, subscribed := false },
         ⟨[],
          [⟨"@producerclose", EventData.none⟩, ⟨"producerclose", EventData.none⟩],
          [⟨"close", EventData.none⟩]⟩)
  | ChannelNotif.producerpause =>
      if s.producerPaused then (s, Effects.empty)
      else
        let wasPaused := s.paused || s.producerPaused
        ({ s with producerPaused := true },
         ⟨[], [⟨"producerpause", EventData.none⟩],
          if wasPaused then [] else [⟨"pause", EventData.none⟩]⟩)
  | ChannelNotif.producerresume =>
      if !s.producerPaused then (s, Effects.empty)
      else
        let wasPaused := s.paused || s.producerPaused
        ({ s with producerPaused := false },
         ⟨[], [⟨"producerresume", EventData.none⟩],
          if wasPaused && !s.paused then [⟨"resume", EventData.none⟩]
          else []⟩)
  | ChannelNotif.score sc =>
      ({ s with score := sc },
       ⟨[], [⟨"score", EventData.score sc⟩], [⟨"score", EventData.score sc⟩]⟩)
  | ChannelNotif.layerschange l =>
      ({ s with currentLayers := l },
       ⟨[], [⟨"layerschange", EventData.layers l⟩],
        [⟨"layerschange", EventData.layers l⟩]⟩)
  | ChannelNotif.trace t =>
      (s, ⟨[], [⟨"trace", EventData.trace t⟩], [⟨"trace", EventData.trace t⟩]⟩)
  | ChannelNotif.unknown _ => (s, Effects.empty)

/-- Channel dispatch: the handler runs only while the subscription installed
in the constructor has not been removed. -/
def Consumer.deliverChannelNotif (s : ConsumerState) (n : ChannelNotif) :
    ConsumerState × Effects :=
  if s.subscribed then Consumer.handleChannelNotif s n else (s, Effects.empty)

/-- The payload channel handler: an rtp frame is re-emitted as a local rtp
event while not closed and dropped once closed; other events only log. -/
def Consumer.handlePayloadNotif (s : ConsumerState) (event : String)
    (payload : List Nat) : ConsumerState × Effects :=
  if event = "rtp" then
    if s.closed then (s, Effects.empty)
    else (s, ⟨[], [⟨"rtp", EventData.packet payload⟩], []⟩)
  else (s, Effects.empty)

/-- One externally triggered step of a Consumer: a method call together with
the worker reply it awaits, or an incoming channel or payload message. -/
inductive ConsAction where
  | close (reply : Except String Unit)
  | transportClosed
  | dump (reply : Except String String)
  | getStats (reply : Except String String)
  | pause (reply : Except String Unit)
  | resume (reply : Except String Unit)
  | setPreferredLayers (layers : ConsumerLayers)
      (reply : Except String (Option ConsumerLayers))
  | setPriority (priority : Nat) (reply : Except String Nat)
  | unsetPriority (reply : Except String Nat)
  | requestKeyFrame (reply : Except String Unit)
  | channelNotif (n : ChannelNotif)
  | payloadNotif (event : String) (payload : List Nat)
deriving Repr

def Consumer.step (s : ConsumerState) : ConsAction → ConsumerState × Effects
  | ConsAction.close r => ((Consumer.close s r).1, (Consumer.close s r).2.1)
  | ConsAction.transportClosed => Consumer.transportClosed s
  | ConsAction.dump r => (s, (Consumer.dump s r).1)
  | ConsAction.getStats r => (s, (Consumer.getStats s r).1)
  | ConsAction.pause r => ((Consumer.pause s r).1, (Consumer.pause s r).2.1)
  | ConsAction.resume r => ((Consumer.resume s r).1, (Consumer.resume s r).2.1)
  | ConsAction.setPreferredLayers l r =>
      ((Consumer.setPreferredLayers s l r).1,
       (Consumer.setPreferredLayers s l r).2.1)
  | ConsAction.setPriority n r =>
      ((Consumer.setPriority s n r).1, (Consumer.setPriority s n r).2.1)
  | ConsAction.unsetPriority r =>
      ((Consumer.unsetPriority s r).1, (Consumer.unsetPriority s r).2.1)
  | ConsAction.requestKeyFrame r =>
      ((Consumer.requestKeyFrame s r).1, (Consumer.requestKeyFrame s r).2.1)
  | ConsAction.channelNotif n => Consumer.deliverChannelNotif s n
  | ConsAction.payloadNotif e p => Consumer.handlePayloadNotif s e p

/-- Run a sequence of steps, collecting the per-step effects. -/
def Consumer.run (s : ConsumerState) : List ConsAction → ConsumerState × List Effects
  | [] => (s, [])
  | a :: rest =>
      ((Consumer.run (Consumer.step s a).1 rest).1,
       (Consumer.step s a).2 :: (Consumer.run (Consumer.step s a).1 rest).2)

/-- Whether an event with the given name occurs in an event list. -/
def emits (l : List Evt) (n : String) : Bool :=
  l.any (fun v => v.name == n)

/-- Effective pause of a Consumer: own flag or producer flag. -/
def effPaused (s : ConsumerState) : Bool :=
  s.paused || s.producerPaused

def sampleScore : ConsumerScore := ⟨10, 10, []⟩

/-- A freshly constructed, open Consumer used for concrete evaluations. -/
def sampleOpen : ConsumerState :=
  Consumer.create "app" false false sampleScore Option.none

/-- A closed Consumer (as left by close()): subscription removed. -/
def sampleClosed : ConsumerState :=
  { closed := true
    paused := false
    producerPaused := false
    priority := 1
    score := sampleScore
    preferredLayers := Option.none
    currentLayers := Option.none
    appData := "app"
    subscribed := false }

/-- The scenario from the spec: own pause, producer pause, own resume,
producer resume, with both own requests succeeding. -/
def pauseResumeSeq : List ConsAction :=
  [ConsAction.pause (Except.ok ()),
   ConsAction.channelNotif ChannelNotif.producerpause,
   ConsAction.resume (Except.ok ()),
   ConsAction.channelNotif ChannelNotif.producerresume]

/-- Number of observer close events in one effect record. -/
def Effects.closeCount (e : Effects) : Nat :=
  (e.observerEvents.filter (fun v => v.name == "close")).length

/-- Total number of observer close events over a run. -/
def closeCountAll (es : List Effects) : Nat :=
  (es.map Effects.closeCount).sum

/-- A Consumer created with the producer already paused, for witnessing. -/
def samplePeerPaused : ConsumerState :=
  Consumer.create "app" false true sampleScore Option.none

/-- The appData setter of the class: it unconditionally throws and mutates
nothing. -/
def Consumer.setAppData (s : ConsumerState) (_v : String) :
    ConsumerState × Except String Unit :=
  (s, Except.error "cannot override appData object")

/-- The appData getter of the class. -/
def Consumer.getAppData (s : ConsumerState) : String :=
  s.appData

/-- C1: Effective-pause edge rule.  For every Consumer state, an observer
pause event is emitted by pause() or by a producerpause message exactly when
the effective pause (own flag OR producer flag) transitions from false to
true, and an observer resume event is emitted by resume() or by a
producerresume message exactly when it transitions from true to false.
Starting from paused=false, producerPaused=false, the sequence pause(),
producerpause, resume(), producerresume emits exactly one observer pause
event (at pause()) and exactly one observer resume event (at
producerresume). -/
theorem effective_pause_edge_rule :
    (∀ (s : ConsumerState) (r : Except String Unit),
      emits (Consumer.pause s r).2.1.observerEvents "pause"
        = (!effPaused s && effPaused (Consumer.pause s r).1) ∧
      emits (Consumer.pause s r).2.1.observerEvents "resume"
        = (effPaused s && !effPaused (Consumer.pause s r).1)) ∧
    (∀ (s : ConsumerState) (r : Except String Unit),
      emits (Consumer.resume s r).2.1.observerEvents "pause"
        = (!effPaused s && effPaused (Consumer.resume s r).1) ∧
      emits (Consumer.resume s r).2.1.observerEvents "resume"
        = (effPaused s && !effPaused (Consumer.resume s r).1)) ∧
    (∀ s : ConsumerState,
      emits (Consumer.deliverChannelNotif s
          ChannelNotif.producerpause).2.observerEvents "pause"
        = (!effPaused s
            && effPaused (Consumer.deliverChannelNotif s
                 ChannelNotif.producerpause).1) ∧
      emits (Consumer.deliverChannelNotif s
          ChannelNotif.producerpause).2.observerEvents "resume"
        = (effPaused s
            && !effPaused (Consumer.deliverChannelNotif s
                 ChannelNotif.producerpause).1)) ∧
    (∀ s : ConsumerState,
      emits (Consumer.deliverChannelNotif s
          ChannelNotif.producerresume).2.observerEvents "pause"
        = (!effPaused s
            && effPaused (Consumer.deliverChannelNotif s
                 ChannelNotif.producerresume).1) ∧
      emits (Consumer.deliverChannelNotif s
          ChannelNotif.producerresume).2.observerEvents "resume"
        = (effPaused s
            && !effPaused (Consumer.deliverChannelNotif s
                 ChannelNotif.producerresume).1)) ∧
    ((Consumer.run sampleOpen pauseResumeSeq).2.map (fun e => e.observerEvents)
      = [[⟨"pause", EventData.none⟩], [], [], [⟨"resume", EventData.none⟩]]) := by
  refine ⟨?_, ?_, ?_, ?_, by decide⟩
  · intro s r
    cases r <;> rcases s with ⟨c, p, pp, pr, sc, pl, cl, ad, sub⟩ <;>
      cases p <;> cases pp <;>
      simp [Consumer.pause, effPaused, emits]
  · intro s r
    cases r <;> rcases s with ⟨c, p, pp, pr, sc, pl, cl, ad, sub⟩ <;>
      cases p <;> cases pp <;>
      simp [Consumer.resume, effPaused, emits]
  · intro s
    rcases s with ⟨c, p, pp, pr, sc, pl, cl, ad, sub⟩
    cases sub <;> cases p <;> cases pp <;>
      simp [Consumer.deliverChannelNotif, Consumer.handleChannelNotif,
        effPaused, emits, Effects.empty]
  · intro s
    rcases s with ⟨c, p, pp, pr, sc, pl, cl, ad, sub⟩
    cases sub <;> cases p <;> cases pp <;>
      simp [Consumer.deliverChannelNotif, Consumer.handleChannelNotif,
        effPaused, emits, Effects.empty]

/-- C2 counterexample: on an already-closed Consumer, pause() still issues a
consumer.pause request over the channel (so the request list is not empty)
and even succeeds when the worker replies ok, and requestKeyFrame() likewise
issues its request: no local invalid-state rejection exists in the class. -/
theorem closed_guard_counterexample :
    (Consumer.pause sampleClosed (Except.ok ())).2.1.requests
      = [⟨"consumer.pause", ReqData.none⟩] ∧
    ¬ (Consumer.pause sampleClosed (Except.ok ())).2.1.requests = [] ∧
    (Consumer.pause sampleClosed (Except.ok ())).2.2 = Except.ok () ∧
    (Consumer.requestKeyFrame sampleClosed (Except.ok ())).2.1.requests
      = [⟨"consumer.requestKeyFrame", ReqData.none⟩] :=
  ⟨by decide, by decide, rfl, by decide⟩

/-- C2 amended: the Consumer performs no closed-state guard on operations
that contact the worker; on a closed Consumer each of pause(), resume(),
setPriority(), unsetPriority(), setPreferredLayers(), requestKeyFrame(),
dump() and getStats() still issues exactly its channel request, the outcome
being whatever the worker reply dictates. -/
theorem closed_consumer_ops_issue_requests (s : ConsumerState)
    (_h : s.closed = true) (r : Except String Unit) (rd : Except String String)
    (rn : Except String Nat) (rl : Except String (Option ConsumerLayers))
    (n : Nat) (l : ConsumerLayers) :
    (Consumer.pause s r).2.1.requests = [⟨"consumer.pause", ReqData.none⟩] ∧
    (Consumer.resume s r).2.1.requests = [⟨"consumer.resume", ReqData.none⟩] ∧
    (Consumer.setPriority s n rn).2.1.requests
      = [⟨"consumer.setPriority", ReqData.priority n⟩] ∧
    (Consumer.unsetPriority s rn).2.1.requests
      = [⟨"consumer.setPriority", ReqData.priority 1⟩] ∧
    (Consumer.setPreferredLayers s l rl).2.1.requests
      = [⟨"consumer.setPreferredLayers",
          ReqData.layers l.spatialLayer l.temporalLayer⟩] ∧
    (Consumer.requestKeyFrame s r).2.1.requests
      = [⟨"consumer.requestKeyFrame", ReqData.none⟩] ∧
    (Consumer.dump s rd).1.requests = [⟨"consumer.dump", ReqData.none⟩] ∧
    (Consumer.getStats s rd).1.requests
      = [⟨"consumer.getStats", ReqData.none⟩] := by
  cases r <;> cases rd <;> cases rn <;> cases rl <;>
    simp [Consumer.pause, Consumer.resume, Consumer.setPriority,
      Consumer.unsetPriority, Consumer.setPreferredLayers,
      Consumer.requestKeyFrame, Consumer.dump, Consumer.getStats]

/-- C2 amended, witnessed at a concrete closed Consumer. -/
theorem closed_consumer_ops_issue_requests_witness :
    sampleClosed.closed = true ∧
    (Consumer.pause sampleClosed (Except.ok ())).2.1.requests
      = [⟨"consumer.pause", ReqData.none⟩] :=
  ⟨by decide,
   (closed_consumer_ops_issue_requests sampleClosed (by decide)
      (Except.ok ()) (Except.ok "") (Except.ok 1) (Except.ok Option.none) 2
      ⟨1, Option.none⟩).1⟩

/-- C3: close() is idempotent.  On a not-yet-closed Consumer the first call
issues exactly one consumer.close request, emits exactly one observer close
event and the internal atClose local event, sets closed, removes the
notification subscription, returns successfully whatever the reply (a close
request failure is swallowed), and its outcome does not depend on the reply;
a second call is a complete no-op, so two calls produce exactly one observer
close event and one request in total. -/
theorem close_idempotent (s : ConsumerState) (h : s.closed = false)
    (r1 r2 r3 : Except String Unit) :
    (Consumer.close s r1).2.1.requests = [⟨"consumer.close", ReqData.none⟩] ∧
    (Consumer.close s r1).2.1.observerEvents = [⟨"close", EventData.none⟩] ∧
    (Consumer.close s r1).2.1.localEvents = [⟨"@close", EventData.none⟩] ∧
    (Consumer.close s r1).1.closed = true ∧
    (Consumer.close s r1).1.subscribed = false ∧
    (Consumer.close s r1).2.2 = Except.ok () ∧
    Consumer.close s r1 = Consumer.close s r3 ∧
    (Consumer.close (Consumer.close s r1).1 r2).2.1 = Effects.empty ∧
    (Consumer.close (Consumer.close s r1).1 r2).1 = (Consumer.close s r1).1 := by
  cases r1 <;> cases r2 <;> cases r3 <;>
    simp [Consumer.close, h, swallow]

/-- C3 witnessed at a concrete open Consumer with a failing close request:
the second call has no effects. -/
theorem close_idempotent_witness :
    sampleOpen.closed = false ∧
    (Consumer.close (Consumer.close sampleOpen (Except.error "err")).1
        (Except.ok ())).2.1 = Effects.empty :=
  ⟨by decide,
   (close_idempotent sampleOpen (by decide) (Except.error "err")
      (Except.ok ()) (Except.ok ())).2.2.2.2.2.2.2.1⟩

/-- C4: transportClosed() never issues a request; every local event it emits
is named transportclose (in particular never close); when the Consumer was
not closed it sets closed, removes the notification subscription and emits
the observer close event; when already closed it is a no-op. -/
theorem transportClosed_spec (s : ConsumerState) :
    (Consumer.transportClosed s).2.requests = [] ∧
    (∀ e ∈ (Consumer.transportClosed s).2.localEvents,
       e.name = "transportclose") ∧
    emits (Consumer.transportClosed s).2.localEvents "close" = false ∧
    (s.closed = false →
       (Consumer.transportClosed s).2.localEvents
           = [⟨"transportclose", EventData.none⟩] ∧
       (Consumer.transportClosed s).2.observerEvents
           = [⟨"close", EventData.none⟩] ∧
       (Consumer.transportClosed s).1
           = { s with closed := true, subscribed := false }) ∧
    (s.closed = true → Consumer.transportClosed s = (s, Effects.empty)) := by
  rcases s with ⟨c, p, pp, pr, sc, pl, cl, ad, sub⟩
  cases c <;> simp [Consumer.transportClosed, emits, Effects.empty]

/-- C4 witnessed at a concrete open Consumer. -/
theorem transportClosed_spec_witness :
    sampleOpen.closed = false ∧
    (Consumer.transportClosed sampleOpen).2.observerEvents
      = [⟨"close", EventData.none⟩] :=
  ⟨by decide, ((transportClosed_spec sampleOpen).2.2.2.1 (by decide)).2.1⟩

theorem closeCountAll_cons (e : Effects) (es : List Effects) :
    closeCountAll (e :: es) = e.closeCount + closeCountAll es := by
  simp [closeCountAll]

/-- Per-step facts about the observer close event: each step emits at most
one, only a step that leaves the state closed emits one, and a step from a
closed state emits none and keeps the state closed. -/
theorem Consumer.step_close_facts (s : ConsumerState) (a : ConsAction) :
    (Consumer.step s a).2.closeCount ≤ 1 ∧
    ((Consumer.step s a).2.closeCount = 0 ∨ (Consumer.step s a).1.closed = true) ∧
    (s.closed = true →
      (Consumer.step s a).1.closed = true ∧
      (Consumer.step s a).2.closeCount = 0) := by
  rcases s with ⟨c, p, pp, pr, sc, pl, cl, ad, sub⟩
  cases a with
  | close r =>
      cases r <;> cases c <;>
        simp [Consumer.step, Consumer.close, Effects.closeCount, Effects.empty]
  | transportClosed =>
      cases c <;>
        simp [Consumer.step, Consumer.transportClosed, Effects.closeCount,
          Effects.empty]
  | dump r => simp [Consumer.step, Consumer.dump, Effects.closeCount]
  | getStats r => simp [Consumer.step, Consumer.getStats, Effects.closeCount]
  | pause r =>
      cases r <;> cases p <;> cases pp <;>
        simp [Consumer.step, Consumer.pause, Effects.closeCount]
  | resume r =>
      cases r <;> cases p <;> cases pp <;>
        simp [Consumer.step, Consumer.resume, Effects.closeCount]
  | setPreferredLayers l r =>
      cases r <;>
        simp [Consumer.step, Consumer.setPreferredLayers, Effects.closeCount]
  | setPriority n r =>
      cases r <;> simp [Consumer.step, Consumer.setPriority, Effects.closeCount]
  | unsetPriority r =>
      cases r <;> simp [Consumer.step, Consumer.unsetPriority, Effects.closeCount]
  | requestKeyFrame r =>
      cases r <;>
        simp [Consumer.step, Consumer.requestKeyFrame, Effects.closeCount]
  | channelNotif n =>
      cases n <;> cases sub <;> cases c <;> cases p <;> cases pp <;>
        simp [Consumer.step, Consumer.deliverChannelNotif,
          Consumer.handleChannelNotif, Effects.closeCount, Effects.empty]
  | payloadNotif e pk =>
      cases c <;>
        simp only [Consumer.step, Consumer.handlePayloadNotif] <;>
        split <;>
        simp [Effects.closeCount, Effects.empty]

/-- From a closed state no run ever emits an observer close event. -/
theorem Consumer.run_closed_zero (acts : List ConsAction) :
    ∀ s : ConsumerState, s.closed = true →
      closeCountAll (Consumer.run s acts).2 = 0 := by
  induction acts with
  | nil => intro s _; simp [Consumer.run, closeCountAll]
  | cons a rest ih =>
      intro s h
      have hf := (Consumer.step_close_facts s a).2.2 h
      simp only [Consumer.run, closeCountAll_cons]
      rw [hf.2, ih (Consumer.step s a).1 hf.1]

/-- Over any action sequence at most one observer close event is emitted. -/
theorem Consumer.run_close_le_one (acts : List ConsAction) :
    ∀ s : ConsumerState, closeCountAll (Consumer.run s acts).2 ≤ 1 := by
  induction acts with
  | nil => intro s; simp [Consumer.run, closeCountAll]
  | cons a rest ih =>
      intro s
      have hf := Consumer.step_close_facts s a
      simp only [Consumer.run, closeCountAll_cons]
      rcases hf.2.1 with h0 | hcl
      · rw [h0]; simpa using ih (Consumer.step s a).1
      · have hz := Consumer.run_closed_zero rest (Consumer.step s a).1 hcl
        rw [hz]
        simpa using hf.1

/-- C5: a producerclose message reaching an already-closed Consumer has no
observable effect: the state is unchanged and no request, local event or
observer event is produced; moreover, across any sequence of steps (closes,
transport closure, producer closure, other calls and messages interleaved)
at most one observer close event is ever emitted, so at most one transition
into the closed state is observable. -/
theorem producerclose_after_close_noop :
    (∀ s : ConsumerState, s.closed = true →
        Consumer.deliverChannelNotif s ChannelNotif.producerclose
          = (s, Effects.empty)) ∧
    (∀ (s : ConsumerState) (acts : List ConsAction),
        closeCountAll (Consumer.run s acts).2 ≤ 1) := by
  constructor
  · intro s h
    simp [Consumer.deliverChannelNotif, Consumer.handleChannelNotif, h]
  · intro s acts
    exact Consumer.run_close_le_one acts s

/-- C5 witnessed at a concrete closed Consumer and a concrete double-close
run. -/
theorem producerclose_after_close_noop_witness :
    sampleClosed.closed = true ∧
    Consumer.deliverChannelNotif sampleClosed ChannelNotif.producerclose
      = (sampleClosed, Effects.empty) ∧
    closeCountAll (Consumer.run sampleOpen
        [ConsAction.close (Except.ok ()),
         ConsAction.channelNotif ChannelNotif.producerclose,
         ConsAction.transportClosed]).2 ≤ 1 :=
  ⟨by decide,
   producerclose_after_close_noop.1 sampleClosed (by decide),
   producerclose_after_close_noop.2 sampleOpen
     [ConsAction.close (Except.ok ()),
      ConsAction.channelNotif ChannelNotif.producerclose,
      ConsAction.transportClosed]⟩

/-- C6: request-failure atomicity.  When the channel request raised by
pause(), resume(), setPriority(), unsetPriority() or setPreferredLayers()
fails, the error propagates to the caller, every local state field is left
unchanged, and no local or observer event is emitted (only the request
itself was issued). -/
theorem request_failure_atomic (s : ConsumerState) (e : String) (n : Nat)
    (l : ConsumerLayers) :
    Consumer.pause s (Except.error e)
      = (s, ⟨[⟨"consumer.pause", ReqData.none⟩], [], []⟩, Except.error e) ∧
    Consumer.resume s (Except.error e)
      = (s, ⟨[⟨"consumer.resume", ReqData.none⟩], [], []⟩, Except.error e) ∧
    Consumer.setPriority s n (Except.error e)
      = (s, ⟨[⟨"consumer.setPriority", ReqData.priority n⟩], [], []⟩,
         Except.error e) ∧
    Consumer.unsetPriority s (Except.error e)
      = (s, ⟨[⟨"consumer.setPriority", ReqData.priority 1⟩], [], []⟩,
         Except.error e) ∧
    Consumer.setPreferredLayers s l (Except.error e)
      = (s, ⟨[⟨"consumer.setPreferredLayers",
              ReqData.layers l.spatialLayer l.temporalLayer⟩], [], []⟩,
         Except.error e) :=
  ⟨rfl, rfl, rfl, rfl, rfl⟩

/-- C7: an rtp payload frame reaching a non-closed Consumer is re-emitted as
a local rtp event carrying the payload; once closed it is silently dropped
with no event and no error. -/
theorem rtp_payload_delivery (s : ConsumerState) (p : List Nat) :
    (s.closed = false →
       Consumer.handlePayloadNotif s "rtp" p
         = (s, ⟨[], [⟨"rtp", EventData.packet p⟩], []⟩)) ∧
    (s.closed = true →
       Consumer.handlePayloadNotif s "rtp" p = (s, Effects.empty)) := by
  constructor <;> intro h <;>
    simp [Consumer.handlePayloadNotif, h, Effects.empty]

/-- C7 witnessed on concrete open and closed Consumers. -/
theorem rtp_payload_delivery_witness :
    sampleOpen.closed = false ∧
    Consumer.handlePayloadNotif sampleOpen "rtp" [1, 2, 3]
      = (sampleOpen, ⟨[], [⟨"rtp", EventData.packet [1, 2, 3]⟩], []⟩) ∧
    Consumer.handlePayloadNotif sampleClosed "rtp" [1, 2, 3]
      = (sampleClosed, Effects.empty) :=
  ⟨by decide,
   (rtp_payload_delivery sampleOpen [1, 2, 3]).1 (by decide),
   (rtp_payload_delivery sampleClosed [1, 2, 3]).2 (by decide)⟩

/-- C8: setPriority(n) issues a consumer.setPriority request carrying n and
unsetPriority() issues one carrying the baseline priority 1, and on success
the local priority field becomes the value echoed in the worker reply (p
here), not the requested value. -/
theorem priority_request_echo (s : ConsumerState) (n p : Nat)
    (r : Except String Nat) :
    (Consumer.setPriority s n r).2.1.requests
      = [⟨"consumer.setPriority", ReqData.priority n⟩] ∧
    (Consumer.unsetPriority s r).2.1.requests
      = [⟨"consumer.setPriority", ReqData.priority 1⟩] ∧
    (Consumer.setPriority s n (Except.ok p)).1 = { s with priority := p } ∧
    (Consumer.unsetPriority s (Except.ok p)).1 = { s with priority := p } := by
  cases r <;> simp [Consumer.setPriority, Consumer.unsetPriority]

/-- C9: redundant producer-pause messages are filtered to no-ops: a
producerpause while producerPaused already holds, and a producerresume while
it does not, leave the state unchanged and emit nothing; hence delivering
either message twice is the same as delivering it once (the second delivery
is a complete no-op). -/
theorem redundant_peer_pause_noop (s : ConsumerState) :
    (s.producerPaused = true →
       Consumer.deliverChannelNotif s ChannelNotif.producerpause
         = (s, Effects.empty)) ∧
    (s.producerPaused = false →
       Consumer.deliverChannelNotif s ChannelNotif.producerresume
         = (s, Effects.empty)) ∧
    (Consumer.deliverChannelNotif
        (Consumer.deliverChannelNotif s ChannelNotif.producerpause).1
        ChannelNotif.producerpause
      = ((Consumer.deliverChannelNotif s ChannelNotif.producerpause).1,
         Effects.empty)) ∧
    (Consumer.deliverChannelNotif
        (Consumer.deliverChannelNotif s ChannelNotif.producerresume).1
        ChannelNotif.producerresume
      = ((Consumer.deliverChannelNotif s ChannelNotif.producerresume).1,
         Effects.empty)) := by
  rcases s with ⟨c, p, pp, pr, sc, pl, cl, ad, sub⟩
  cases sub <;> cases pp <;>
    simp [Consumer.deliverChannelNotif, Consumer.handleChannelNotif,
      Effects.empty]

/-- C9 witnessed on concrete states on both sides of the filter. -/
theorem redundant_peer_pause_noop_witness :
    samplePeerPaused.producerPaused = true ∧
    Consumer.deliverChannelNotif samplePeerPaused ChannelNotif.producerpause
      = (samplePeerPaused, Effects.empty) ∧
    Consumer.deliverChannelNotif sampleOpen ChannelNotif.producerresume
      = (sampleOpen, Effects.empty) :=
  ⟨by decide,
   (redundant_peer_pause_noop samplePeerPaused).1 (by decide),
   (redundant_peer_pause_noop sampleOpen).2.1 (by decide)⟩

/-- No operation of the class ever changes the stored appData. -/
theorem Consumer.step_preserves_appData (s : ConsumerState) (a : ConsAction) :
    (Consumer.step s a).1.appData = s.appData := by
  cases a with
  | close r =>
      simp only [Consumer.step, Consumer.close]
      split <;> rfl
  | transportClosed =>
      simp only [Consumer.step, Consumer.transportClosed]
      split <;> rfl
  | dump r => rfl
  | getStats r => rfl
  | pause r => cases r <;> rfl
  | resume r => cases r <;> rfl
  | setPreferredLayers l r => cases r <;> rfl
  | setPriority n r => cases r <;> rfl
  | unsetPriority r => cases r <;> rfl
  | requestKeyFrame r => cases r <;> rfl
  | channelNotif n =>
      simp only [Consumer.step, Consumer.deliverChannelNotif]
      split
      · cases n <;> simp only [Consumer.handleChannelNotif] <;>
          (try split) <;> rfl
      · rfl
  | payloadNotif e p =>
      simp only [Consumer.step, Consumer.handlePayloadNotif]
      split
      · split <;> rfl
      · rfl

/-- The stored appData survives any run of operations and messages. -/
theorem Consumer.run_preserves_appData (acts : List ConsAction) :
    ∀ s : ConsumerState, (Consumer.run s acts).1.appData = s.appData := by
  induction acts with
  | nil => intro s; rfl
  | cons a rest ih =>
      intro s
      simp only [Consumer.run]
      rw [ih (Consumer.step s a).1, Consumer.step_preserves_appData]

/-- C10: the appData property is write-protected: every assignment through
the setter fails with the error message cannot-override-appData-object and
leaves the state untouched, while the getter on a freshly constructed
Consumer returns exactly the value supplied at construction and no sequence
of operations or messages ever changes it. -/
theorem appData_write_protected :
    (∀ (s : ConsumerState) (v : String),
        Consumer.setAppData s v
          = (s, Except.error "cannot override appData object")) ∧
    (∀ (a : String) (p q : Bool) (sc : ConsumerScore)
        (pl : Option ConsumerLayers),
        Consumer.getAppData (Consumer.create a p q sc pl) = a) ∧
    (∀ (s : ConsumerState) (acts : List ConsAction),
        Consumer.getAppData (Consumer.run s acts).1
          = Consumer.getAppData s) :=
  ⟨fun _ _ => rfl, fun _ _ _ _ _ => rfl,
   fun s acts => Consumer.run_preserves_appData acts s⟩
